import Mathlib

/-
Verification of the ScikitBot repository core (ml/data.py, ml/predictor.py,
ml/trainer.py) against its natural-language specification.

Modelling conventions:
* pandas float64 arithmetic is modelled over ℚ;
* a pandas NaN (incomplete rolling window, out-of-range shift) and a ±inf
  produced by a division by zero are both modelled as `none`, because
  `process_data` replaces ±inf by NaN and then drops every row holding a NaN;
* dates are modelled as `Nat` (the code formats them as strings and only
  compares them for equality and sorts by them);
* a raised Python exception / `quit(1)` is modelled as `Except.error`.
-/

namespace ScikitBot

/-- A raw OHLCV bar, one line of the downloaded price history.  The `Open`
column of the CSV is never read by the code under verification and is
omitted.  `adjClose` is the `Adj Close` column. -/
structure Bar where
  date : Nat
  high : ℚ
  low : ℚ
  adjClose : ℚ
  volume : ℚ
deriving DecidableEq

/-- Fallback bar used only for out-of-range `List.getD` accesses that the
source can never perform (guarded by the index conditions). -/
def defBar : Bar := ⟨0, 0, 0, 0, 0⟩

/-- Insert a bar into a date-sorted list, keeping the sort stable. -/
def insertBar (b : Bar) : List Bar → List Bar
  | [] => [b]
  | c :: cs => if b.date ≤ c.date then b :: c :: cs else c :: insertBar b cs

/-- Model of `df.sort_values('Date')` at the top of `process_data`. -/
def sortBars : List Bar → List Bar
  | [] => []
  | b :: bs => insertBar b (sortBars bs)

/-- The `Adj Close` column of the bar list. -/
def closesOf (bs : List Bar) : List ℚ := bs.map (fun b => b.adjClose)

/-- The `Volume` column of the bar list. -/
def volsOf (bs : List Bar) : List ℚ := bs.map (fun b => b.volume)

/-- Model of a pandas division whose result feeds `df.replace([inf,-inf],nan)`
followed by `df.dropna()`: a zero denominator yields ±inf or NaN, which is
dropped, hence `none`. -/
def divQ (a b : ℚ) : Option ℚ := if b = 0 then none else some (a / b)

/-- Model of `Series.pct_change(periods=p, fill_method=None) * 100` at row
`i`: `(x_i / x_{i-p} - 1) * 100`, NaN for the first `p` rows and ±inf/NaN
(hence dropped) when `x_{i-p} = 0`. -/
def pctChangeCol (xs : List ℚ) (p i : Nat) : Option ℚ :=
  if i < p then none
  else do
    let cur ← xs[i]?
    let prev ← xs[i - p]?
    if prev = 0 then none else some ((cur / prev - 1) * 100)

/-- Model of `Series.rolling(window=w).mean()` at row `i` (NaN until the
window is complete). -/
def rollMeanCol (xs : List ℚ) (w i : Nat) : Option ℚ :=
  if i + 1 < w ∨ xs.length ≤ i then none
  else some (((xs.take (i + 1)).drop (i + 1 - w)).sum / (w : ℚ))

/-- Model of `Series.rolling(window=5).std()` at row `i`, squared: pandas
`std` uses the sample convention (ddof = 1), so the value stored by the
source in column `Std_5d` is the square root of this rational.  The square
root of a rational is kept squared so the embedding stays in ℚ; no claim
under verification inspects the numeric value of `Std_5d`, only its
definedness (which coincides: the source value is NaN exactly when this is
`none`) and its position in the feature vector. -/
def rollVarCol (xs : List ℚ) (i : Nat) : Option ℚ :=
  if i + 1 < 5 ∨ xs.length ≤ i then none
  else
    let win := (xs.take (i + 1)).drop (i + 1 - 5)
    let m := win.sum / 5
    some ((win.map (fun x => (x - m) ^ 2)).sum / 4)

/-- Model of `Series.shift(k)` at row `i`. -/
def shiftCol (xs : List ℚ) (k i : Nat) : Option ℚ :=
  if i < k then none else xs[i - k]?

/-- Model of the per-row `TR` computation (`df.apply(..., axis=1)`):
`max(High - Low, |High - Previous_Close|, |Low - Previous_Close|)`, with the
two absolute-value terms replaced by `0` on row 0, where `Previous_Close`
is NaN.  The column itself is total (never NaN). -/
def trVal (bs : List Bar) (i : Nat) : ℚ :=
  let b := bs.getD i defBar
  if i = 0 then max (b.high - b.low) (max 0 0)
  else
    let pc := (bs.getD (i - 1) defBar).adjClose
    max (b.high - b.low) (max |b.high - pc| |b.low - pc|)

/-- Model of `df['TR'].rolling(window=14).mean()` at row `i`. -/
def atrCol (bs : List Bar) (i : Nat) : Option ℚ :=
  if i + 1 < 14 ∨ bs.length ≤ i then none
  else some (((List.range 14).map (fun j => trVal bs (i - j))).sum / 14)

/-- The day-over-day difference `df['Adj Close'].diff()` at row `k ≥ 1`
(only evaluated in range in `rsi14`). -/
def deltaAt (xs : List ℚ) (k : Nat) : ℚ :=
  xs.getD k 0 - xs.getD (k - 1) 0

/-- Model of the RSI_14 block of `process_data`: the rolling 14-sample means
of the clipped positive and negated negative deltas need all 14 deltas in the
window to be defined (`min_periods=14`), so the value is NaN for `i < 14`
(the delta at row 0 is NaN).  `rs = avg_gain / avg_loss` in pandas is `+inf`
when `avg_loss = 0 < avg_gain` — giving `RSI = 100 - 100/(1+inf) = 100`, a
finite surviving value — and NaN when both are 0 (dropped). -/
def rsi14 (xs : List ℚ) (i : Nat) : Option ℚ :=
  if i < 14 ∨ xs.length ≤ i then none
  else
    let g := (((List.range 14).map (fun j => max (deltaAt xs (i - j)) 0)).sum) / 14
    let l := (((List.range 14).map (fun j => max (-(deltaAt xs (i - j))) 0)).sum) / 14
    if l = 0 then (if g = 0 then none else some 100)
    else some (100 - 100 / (1 + g / l))

/-- Model of `Momentum_10 = Adj Close - Adj Close.shift(10)` at row `i`. -/
def momCol (xs : List ℚ) (i : Nat) : Option ℚ :=
  if i < 10 ∨ xs.length ≤ i then none
  else some (xs.getD i 0 - xs.getD (i - 10) 0)

/-- Model of `Target = np.sign(Adj Close.shift(-1) - Adj Close)` at row `i`
(NaN on the last row, which is therefore always dropped). -/
def targetCol (xs : List ℚ) (i : Nat) : Option Int :=
  if i + 1 < xs.length then
    some (if xs.getD i 0 < xs.getD (i + 1) 0 then 1
          else if xs.getD (i + 1) 0 < xs.getD i 0 then -1 else 0)
  else none

/-- One surviving row of the enriched dataframe produced by `process_data`:
the original bar columns plus every derived column, all finite (`dropna`
removed every row holding a NaN).  `Std_5d` holds the square of the source's
5-day sample standard deviation (see `rollVarCol`). -/
structure ERow where
  Date : Nat
  High : ℚ
  Low : ℚ
  Adj_Close : ℚ
  Volume : ℚ
  Pct_Change_Close : ℚ
  Pct_Change_3d : ℚ
  Ma5 : ℚ
  Ma20 : ℚ
  Close_to_Ma5 : ℚ
  Close_to_Ma20 : ℚ
  Ma5_minus_Ma20 : ℚ
  Range_Ratio : ℚ
  Pct_Change_Volume : ℚ
  Va5 : ℚ
  Va20 : ℚ
  Volume_to_Va5 : ℚ
  Volume_to_Va20 : ℚ
  Lagged_Volume_3d : ℚ
  Std_5d : ℚ
  Previous_Close : ℚ
  TR : ℚ
  ATR_14 : ℚ
  RSI_14 : ℚ
  Momentum_10 : ℚ
  Target : Int
deriving DecidableEq

/-- The PRICE section of `process_data` at row `i` (`none` when any of its
columns is NaN there). -/
structure PriceCols where
  pcc : ℚ
  pc3 : ℚ
  ma5 : ℚ
  ma20 : ℚ
  c2ma5 : ℚ
  c2ma20 : ℚ
  rr : ℚ
deriving DecidableEq

/-- Computes the PRICE block of columns at row `i`. -/
def priceCols (bs : List Bar) (i : Nat) : Option PriceCols := do
  let b ← bs[i]?
  let closes := closesOf bs
  let pcc ← pctChangeCol closes 1 i
  let pc3 ← pctChangeCol closes 3 i
  let ma5 ← rollMeanCol closes 5 i
  let ma20 ← rollMeanCol closes 20 i
  let c2ma5 ← divQ b.adjClose ma5
  let c2ma20 ← divQ b.adjClose ma20
  let rr ← divQ (b.high - b.low) b.adjClose
  pure { pcc := pcc, pc3 := pc3, ma5 := ma5, ma20 := ma20, c2ma5 := c2ma5,
         c2ma20 := c2ma20, rr := rr }

/-- The VOLUME section of `process_data` at row `i`. -/
structure VolCols where
  pcv : ℚ
  va5 : ℚ
  va20 : ℚ
  v2va5 : ℚ
  v2va20 : ℚ
  lagv : ℚ
deriving DecidableEq

/-- Computes the VOLUME block of columns at row `i`. -/
def volCols (bs : List Bar) (i : Nat) : Option VolCols := do
  let b ← bs[i]?
  let vols := volsOf bs
  let pcv ← pctChangeCol vols 1 i
  let va5 ← rollMeanCol vols 5 i
  let va20 ← rollMeanCol vols 20 i
  let v2va5 ← divQ b.volume va5
  let v2va20 ← divQ b.volume va20
  let lagv ← shiftCol vols 3 i
  pure { pcv := pcv, va5 := va5, va20 := va20, v2va5 := v2va5,
         v2va20 := v2va20, lagv := lagv }

/-- The VOLATILITY section together with `Previous_Close` and the TARGET
label, at row `i`. -/
structure VolatilityCols where
  stdv : ℚ
  pclose : ℚ
  atr : ℚ
  rsi : ℚ
  mom : ℚ
  tgt : Int
deriving DecidableEq

/-- Computes the VOLATILITY and TARGET block of columns at row `i`. -/
def volatilityCols (bs : List Bar) (i : Nat) : Option VolatilityCols := do
  let closes := closesOf bs
  let stdv ← rollVarCol closes i
  let pclose ← shiftCol closes 1 i
  let atr ← atrCol bs i
  let rsi ← rsi14 closes i
  let mom ← momCol closes i
  let tgt ← targetCol closes i
  pure { stdv := stdv, pclose := pclose, atr := atr, rsi := rsi, mom := mom,
         tgt := tgt }

/-- Row `i` of the enriched dataframe, `none` exactly when `dropna` removes
the row (some derived column is NaN after the ±inf → NaN replacement).  The
column computations are grouped into the PRICE / VOLUME / VOLATILITY
sections of the source. -/
def mkRow (bs : List Bar) (i : Nat) : Option ERow := do
  let b ← bs[i]?
  let p ← priceCols bs i
  let v ← volCols bs i
  let w ← volatilityCols bs i
  pure { Date := b.date, High := b.high, Low := b.low, Adj_Close := b.adjClose,
         Volume := b.volume, Pct_Change_Close := p.pcc, Pct_Change_3d := p.pc3,
         Ma5 := p.ma5, Ma20 := p.ma20, Close_to_Ma5 := p.c2ma5,
         Close_to_Ma20 := p.c2ma20, Ma5_minus_Ma20 := p.ma5 - p.ma20,
         Range_Ratio := p.rr, Pct_Change_Volume := v.pcv, Va5 := v.va5,
         Va20 := v.va20, Volume_to_Va5 := v.v2va5, Volume_to_Va20 := v.v2va20,
         Lagged_Volume_3d := v.lagv, Std_5d := w.stdv,
         Previous_Close := w.pclose, TR := trVal bs i, ATR_14 := w.atr,
         RSI_14 := w.rsi, Momentum_10 := w.mom, Target := w.tgt }

/-- Model of `ml.data.process_data`.  On a non-empty input it sorts by date,
derives every column and drops the rows holding a NaN, returning the
surviving rows in date order.  On an empty input the pandas pipeline raises
(`KeyError` on the missing `Date` column of a columnless empty frame, or
`ValueError` when assigning the result of `df.apply` on an empty frame to
the single column `TR`); either way the caller gets an exception and never a
silent empty result, modelled as `Except.error`. -/
def process_data (bars : List Bar) : Except String (List ERow) :=
  match bars with
  | [] => Except.error "InsufficientHistory: empty input frame"
  | b :: bs =>
    let sorted := sortBars (b :: bs)
    Except.ok ((List.range sorted.length).filterMap (fun i => mkRow sorted i))

/-- The sector list of `ml/predictor.py` (`STOCK_SECTORS`). -/
def STOCK_SECTORS : List String :=
  ["Basic Materials", "Communication Services", "Consumer Cyclical",
   "Consumer Defensive", "Energy", "Financial Services", "Healthcare",
   "Industrials", "Real Estate", "Technology", "Utilities", "Unknown"]

/-- The feature-column list of `ml/predictor.py` (`FEATURE_COLS`), the
positional contract handed to the model artifacts. -/
def FEATURE_COLS : List String :=
  ["Pct_Change_Close", "Pct_Change_3d", "Ma5", "Ma20", "Close_to_Ma5",
   "Close_to_Ma20", "Ma5_minus_Ma20", "Range_Ratio", "Pct_Change_Volume",
   "Va5", "Va20", "Lagged_Volume_3d", "Std_5d", "Previous_Close", "TR",
   "ATR_14", "RSI_14", "Momentum_10"]

/-- Column access on an enriched row by pandas column name (`row[col]`);
`none` for a name that is not a numeric column of the enriched frame. -/
def fieldOf (r : ERow) : String → Option ℚ
  | "Pct_Change_Close" => some r.Pct_Change_Close
  | "Pct_Change_3d" => some r.Pct_Change_3d
  | "Ma5" => some r.Ma5
  | "Ma20" => some r.Ma20
  | "Close_to_Ma5" => some r.Close_to_Ma5
  | "Close_to_Ma20" => some r.Close_to_Ma20
  | "Ma5_minus_Ma20" => some r.Ma5_minus_Ma20
  | "Range_Ratio" => some r.Range_Ratio
  | "Pct_Change_Volume" => some r.Pct_Change_Volume
  | "Va5" => some r.Va5
  | "Va20" => some r.Va20
  | "Volume_to_Va5" => some r.Volume_to_Va5
  | "Volume_to_Va20" => some r.Volume_to_Va20
  | "Lagged_Volume_3d" => some r.Lagged_Volume_3d
  | "Std_5d" => some r.Std_5d
  | "Previous_Close" => some r.Previous_Close
  | "TR" => some r.TR
  | "ATR_14" => some r.ATR_14
  | "RSI_14" => some r.RSI_14
  | "Momentum_10" => some r.Momentum_10
  | _ => none

/-- The projection `X = row[FEATURE_COLS]` of `signal`: the feature values
of one enriched row in the positional order fixed by `FEATURE_COLS`. -/
def featureVector (r : ERow) : List ℚ :=
  FEATURE_COLS.filterMap (fun c => fieldOf r c)

/-- The model-artifact store on disk (`Models/` folder): for a sector name,
the trained classifier (`{sector}.joblib`) and the fitted scaler
(`{sector}_scaler.joblib`) when both files exist, `none` for a missing
file.  The loaded artifacts are opaque functions: the scaler transforms a
feature vector, the classifier maps a scaled vector to a label. -/
structure ArtifactStore where
  scalerOf : String → Option (List ℚ → List ℚ)
  modelOf : String → Option (List ℚ → Int)

/-- Observable side effects of `signal`: a console diagnostic (`print`) or a
`joblib.load` of an artifact file. -/
inductive LogEvent where
  | warn (msg : String)
  | load (path : String)
deriving DecidableEq

/-- The sector substitution at the top of the artifact lookup in `signal`:
`if sector not in STOCK_SECTORS: sector = "Unknown"`. -/
def resolveSector (sector : String) : String :=
  if STOCK_SECTORS.contains sector then sector else "Unknown"

/-- Model of `predictor.signal(ticker, sector, df, date_str)` (the `ticker`
argument is unused by the source body).  Returns the prediction together
with the `joblib.load` / `print` events the call performs, or an error when
`df.iloc[[-1]]` indexes an empty frame.  Missing artifact files make the
call return the neutral prediction 0 after printing a diagnostic (the
source message quotes the sector name; the quotes are omitted here). -/
def signal (store : ArtifactStore) (sector : String) (df : List ERow)
    (dateStr : Nat) : Except String (Int × List LogEvent) :=
  let matched := df.filter (fun r => r.Date == dateStr)
  let rowOpt := if matched.isEmpty then df.getLast? else matched.head?
  match rowOpt with
  | none => Except.error "IndexError: single positional indexer is out-of-bounds"
  | some row =>
    let X := featureVector row
    let sec := resolveSector sector
    let modelPath := "Models/" ++ sec ++ ".joblib"
    let scalerPath := "Models/" ++ sec ++ "_scaler.joblib"
    match store.modelOf sec, store.scalerOf sec with
    | some model, some scaler =>
      Except.ok (model (scaler X), [LogEvent.load modelPath, LogEvent.load scalerPath])
    | _, _ =>
      Except.ok (0, [LogEvent.warn ("[ERROR] Model or scaler for sector " ++ sec ++ " not found.")])

/-- Outcome of the external `yf.Ticker(t).info.get("sector")` call inside
`trainer.get_ticker_sector`: a sector string, a missing field (`None`), an
exception whose text contains "404", or any other exception. -/
inductive FetchOutcome where
  | found (s : String)
  | nofield
  | err404
  | errOther
deriving DecidableEq

/-- The ticker → sector cache (`data/ticker_info_cache.joblib`). -/
abbrev TickerCache := List (String × String)

/-- Model of `trainer.get_ticker_sector`.  A cached ticker returns at once.
Otherwise the yfinance outcome decides: a sector string is stored, a missing
field or a 404 exception falls back to "Unknown", and any other exception
executes `quit(1)`, terminating the whole process — modelled as
`Except.error`.  The updated cache (which the source saves to disk) is
returned alongside the sector. -/
def get_ticker_sector (ticker : String) (cache : TickerCache)
    (outcome : FetchOutcome) : Except Unit (String × TickerCache) :=
  match cache.lookup ticker with
  | some s => Except.ok (s, cache)
  | none =>
    match outcome with
    | FetchOutcome.found s => Except.ok (s, (ticker, s) :: cache)
    | FetchOutcome.nofield => Except.ok ("Unknown", (ticker, "Unknown") :: cache)
    | FetchOutcome.err404 => Except.ok ("Unknown", (ticker, "Unknown") :: cache)
    | FetchOutcome.errOther => Except.error ()

/-- The mutable portfolio variables of `simulate`: `holding`, `cash`,
`expenses` and the `last_price` carried between days (`none` before the
first day). -/
structure TradeState where
  holding : ℚ
  cash : ℚ
  expenses : ℚ
  lastPrice : Option ℚ
deriving DecidableEq

/-- One simulated trading day: the row's adjusted close and the model
prediction `signal` returned for that date. -/
structure Day where
  price : ℚ
  pred : Int
deriving DecidableEq

/-- The `daily_pct_gain` computation of `simulate`: percentage gain of
today's price over `last_price`, where a missing `last_price` (first day)
is replaced by today's price, and a zero `last_price` yields 0. -/
def dailyGain (st : TradeState) (d : Day) : ℚ :=
  let lp := st.lastPrice.getD d.price
  if lp ≠ 0 then (d.price - lp) / lp * 100 else 0

/-- The cash-shortfall block that `simulate` repeats verbatim before both
purchases (`if cash < cost: needed = cost - cash; cash += needed;
expenses += needed`): returns the updated `(cash, expenses)` pair. -/
def inject (cash expenses cost : ℚ) : ℚ × ℚ :=
  if cash < cost then (cash + (cost - cash), expenses + (cost - cash))
  else (cash, expenses)

/-- One iteration of the day loop of `simulate` (lines 141–183 of
`ml/predictor.py`): top-up / liquidate while holding, fixed $1000 buy while
flat, with the shortfall injection before every purchase, and the
`last_price = price` update at the end. -/
def step (st : TradeState) (d : Day) : TradeState :=
  let gain := dailyGain st d
  let st1 :=
    if 0 < st.holding then
      if 0 ≤ d.pred then
        if 0 < gain then
          let additional := st.holding * (gain / 100)
          let cost := additional * d.price
          let ce := inject st.cash st.expenses cost
          { holding := st.holding + additional, cash := ce.1 - cost,
            expenses := ce.2, lastPrice := st.lastPrice }
        else st
      else
        { holding := 0, cash := st.cash + st.holding * d.price,
          expenses := st.expenses, lastPrice := st.lastPrice }
    else
      if 0 ≤ d.pred then
        let cost : ℚ := 1000
        let ce := inject st.cash st.expenses cost
        { holding := st.holding + cost / d.price, cash := ce.1 - cost,
          expenses := ce.2, lastPrice := st.lastPrice }
      else st
  { st1 with lastPrice := some d.price }

/-- The portfolio variables before the first simulated day. -/
def initState : TradeState := ⟨0, 0, 0, none⟩

/-- The day loop of `simulate` run over a list of days. -/
def runDays (days : List Day) : TradeState :=
  days.foldl step initState

/-- The terminal block of `simulate`: forced liquidation of a remaining
position at the last row's price (`df.iloc[-1]['Adj Close']`), then the
profit percentage, 0 when no money was ever injected.  Returns the
`[expenses, cash, profit_pct]` triple of the source. -/
def finalize (days : List Day) (st : TradeState) : ℚ × ℚ × ℚ :=
  let st2 :=
    match days.getLast? with
    | none => st
    | some last =>
      if 0 < st.holding then
        { st with cash := st.cash + st.holding * last.price, holding := 0 }
      else st
  let profit : ℚ :=
    if 0 < st2.expenses then (st2.cash - st2.expenses) / st2.expenses * 100 else 0
  (st2.expenses, st2.cash, profit)

/-- The whole simulation of a ticker given its enriched days (price and
prediction per surviving row): day loop, terminal liquidation, profit. -/
def simulateCore (days : List Day) : ℚ × ℚ × ℚ :=
  finalize days (runDays days)

/-- Everything external that one `simulate(ticker, start, end)` call
consumes: the bars the market-data collaborator returned and the outcome of
the yfinance sector lookup for the ticker. -/
structure TickerEnv where
  ticker : String
  bars : List Bar
  fetchOutcome : FetchOutcome
deriving DecidableEq

/-- The sequence of `signal` calls the day loop performs, one per enriched
row, each looking its own date up in the full enriched frame `rows`.  The
day loop consults the prediction before touching the portfolio state, and
`signal` does not depend on that state, so collecting the predictions first
is equivalent to interleaving them with the state updates.  A `signal`
exception aborts the run. -/
def predsFor (store : ArtifactStore) (sector : String) (rows : List ERow) :
    List ERow → Except String (List Int)
  | [] => Except.ok []
  | r :: rs =>
    match signal store sector rows r.Date with
    | Except.error e => Except.error e
    | Except.ok (p, _) =>
      match predsFor store sector rows rs with
      | Except.error e => Except.error e
      | Except.ok ps => Except.ok (p :: ps)

/-- Model of `predictor.simulate`: an empty download returns `None` (an
absent result); otherwise the bars are enriched, the sector resolved (a
`quit(1)` there kills the process: `Except.error`), the day loop driven by
`signal`, and the `[expenses, cash, profit_pct]` triple returned together
with the threaded sector cache. -/
def simulate (store : ArtifactStore) (env : TickerEnv) (cache : TickerCache) :
    Except Unit (Option (ℚ × ℚ × ℚ) × TickerCache) :=
  match env.bars with
  | [] => Except.ok (none, cache)
  | _ :: _ =>
    match process_data env.bars with
    | Except.error _ => Except.error ()
    | Except.ok rows =>
      match get_ticker_sector env.ticker cache env.fetchOutcome with
      | Except.error _ => Except.error ()
      | Except.ok (sector, cache2) =>
        match predsFor store sector rows rows with
        | Except.error _ => Except.error ()
        | Except.ok preds =>
          Except.ok
            (some (simulateCore
              (List.zipWith (fun (r : ERow) p => Day.mk r.Adj_Close p) rows preds)),
             cache2)

/-- Model of `predictor.backTest`: runs `simulate` for each ticker in order,
collecting `ticker → result-or-None`; the sector cache (a process-global
dict in the source) is threaded through.  A `quit(1)` raised by any
ticker's sector lookup terminates the process, losing the whole batch. -/
def backTest (store : ArtifactStore) (envs : List TickerEnv)
    (cache : TickerCache) :
    Except Unit (List (String × Option (ℚ × ℚ × ℚ))) :=
  match envs with
  | [] => Except.ok []
  | e :: rest =>
    match simulate store e cache with
    | Except.error _ => Except.error ()
    | Except.ok (res, cache2) =>
      match backTest store rest cache2 with
      | Except.error _ => Except.error ()
      | Except.ok tail => Except.ok ((e.ticker, res) :: tail)

/-- A process lifetime of `signal` calls: the log events of each call in
order.  `predictor.py` keeps no state between `signal` calls (the only
module-level cache is the ticker → sector dict), so the calls are
independent. -/
def runCalls (store : ArtifactStore)
    (calls : List (String × List ERow × Nat)) : List LogEvent :=
  (calls.map (fun c =>
    match signal store c.1 c.2.1 c.2.2 with
    | Except.ok pr => pr.2
    | Except.error _ => [])).flatten

/-- C6: the feature vector handed to the model artifacts has exactly 18
fields in exactly the positional order 1-day % change of close, 3-day %
change of close, Ma5, Ma20, Close/Ma5, Close/Ma20, Ma5 − Ma20, range ratio,
% change of volume, Va5, Va20, volume lagged 3 days, 5-day standard
deviation, previous close, true range, ATR14, RSI14, 10-day momentum. -/
theorem C6_feature_vector_order :
    FEATURE_COLS.length = 18 ∧
    FEATURE_COLS = ["Pct_Change_Close", "Pct_Change_3d", "Ma5", "Ma20",
      "Close_to_Ma5", "Close_to_Ma20", "Ma5_minus_Ma20", "Range_Ratio",
      "Pct_Change_Volume", "Va5", "Va20", "Lagged_Volume_3d", "Std_5d",
      "Previous_Close", "TR", "ATR_14", "RSI_14", "Momentum_10"] ∧
    ∀ r : ERow, featureVector r =
      [r.Pct_Change_Close, r.Pct_Change_3d, r.Ma5, r.Ma20, r.Close_to_Ma5,
       r.Close_to_Ma20, r.Ma5_minus_Ma20, r.Range_Ratio, r.Pct_Change_Volume,
       r.Va5, r.Va20, r.Lagged_Volume_3d, r.Std_5d, r.Previous_Close, r.TR,
       r.ATR_14, r.RSI_14, r.Momentum_10] :=
  ⟨rfl, rfl, fun _ => rfl⟩

/-- C1: on a 2-day run with prediction +1 both days and adjusted closes 100
then 110, the simulator holds 10 shares with 1000 injected after day 1,
holds 11 shares with 1110 injected after day 2 (top-up of 1 share at 110),
and after the terminal liquidation of 11 shares at 110 reports exactly
expenses = 1110, cash = 1210, profit_pct = (1210 − 1110) / 1110 · 100. -/
theorem C1_scenario_two_rising_days :
    runDays [Day.mk 100 1] = ⟨10, 0, 1000, some 100⟩ ∧
    runDays [Day.mk 100 1, Day.mk 110 1] = ⟨11, 0, 1110, some 110⟩ ∧
    simulateCore [Day.mk 100 1, Day.mk 110 1] =
      (1110, 1210, (1210 - 1110) / 1110 * 100) := by
  refine ⟨?_, ?_, ?_⟩ <;>
    norm_num [runDays, simulateCore, finalize, step, inject, dailyGain, initState]

/-- C10: called with an empty enriched row set, the fall-back row selection
of `signal` (`df.iloc[[-1]]`) fails with an out-of-range indexing error for
every store, sector and date, instead of returning a neutral prediction. -/
theorem C10_empty_frame_fallback_errors :
    ∀ (store : ArtifactStore) (sector : String) (dateStr : Nat),
      signal store sector [] dateStr =
        Except.error "IndexError: single positional indexer is out-of-bounds" :=
  fun _ _ _ => rfl

/-- C2: an empty input sequence makes the feature pipeline fail with an
error surfaced to its caller, while every non-empty input returns a valid
(possibly empty) row list — in particular a 2-bar input whose rows are all
dropped by the warm-up requirements yields the empty but valid result, so
the two situations are distinguishable. -/
theorem C2_empty_input_rejected :
    (∃ msg, process_data ([] : List Bar) = Except.error msg) ∧
    (∀ bars : List Bar, bars ≠ [] → ∃ rows, process_data bars = Except.ok rows) ∧
    process_data [Bar.mk 0 101 99 100 10, Bar.mk 1 102 100 101 12] =
      Except.ok [] := by
  refine ⟨⟨_, rfl⟩, ?_, rfl⟩
  intro bars hb
  cases bars with
  | nil => exact absurd rfl hb
  | cons b bs => exact ⟨_, rfl⟩

/-- Witness for C2 at the concrete one-bar input. -/
theorem C2_witness :
    ∃ rows, process_data [Bar.mk 0 101 99 100 10] = Except.ok rows :=
  C2_empty_input_rejected.2.1 [Bar.mk 0 101 99 100 10] (by simp)

/-- A day whose prediction is -1 leaves a flat portfolio untouched apart
from the `last_price` update. -/
lemma step_flat_neg_pred (st : TradeState) (d : Day) (hh : st.holding = 0)
    (hp : d.pred = -1) : step st d = { st with lastPrice := some d.price } := by
  simp [step, hh, hp]

/-- Folding the day loop over all-(-1) predictions from a flat, zero-cash,
zero-expense state changes nothing but `last_price`. -/
lemma foldl_all_neg (days : List Day) :
    ∀ st : TradeState, (∀ d ∈ days, d.pred = -1) → st.holding = 0 →
      (days.foldl step st).holding = 0 ∧
      (days.foldl step st).cash = st.cash ∧
      (days.foldl step st).expenses = st.expenses := by
  induction days with
  | nil => exact fun st _ hh => ⟨hh, rfl, rfl⟩
  | cons d ds ih =>
    intro st hall hh
    rw [List.foldl_cons, step_flat_neg_pred st d hh (hall d (List.mem_cons_self d ds))]
    exact ih _ (fun x hx => hall x (List.mem_cons_of_mem d hx)) hh

/-- C7: the reported profit percentage is (cash − expenses)/expenses · 100
when expenses > 0 and 0 when expenses = 0; a run whose prediction is -1
every day ends with expenses = 0, cash = 0, profit_pct = 0 — a defined
outcome, not an error. -/
theorem C7_profit_formula_and_zero_floor :
    (∀ days : List Day,
      (simulateCore days).2.2 =
        if 0 < (simulateCore days).1 then
          ((simulateCore days).2.1 - (simulateCore days).1) /
            (simulateCore days).1 * 100
        else 0) ∧
    (∀ days : List Day, (∀ d ∈ days, d.pred = -1) →
      simulateCore days = (0, 0, 0)) := by
  constructor
  · intro days
    rfl
  · intro days hall
    obtain ⟨h1, h2, h3⟩ := foldl_all_neg days initState hall rfl
    show finalize days (runDays days) = (0, 0, 0)
    have h2z : (List.foldl step initState days).cash = 0 := h2
    have h3z : (List.foldl step initState days).expenses = 0 := h3
    unfold finalize runDays
    cases hl : days.getLast? with
    | none => simp [hl, h1, h2z, h3z]
    | some last => simp [hl, h1, h2z, h3z]

/-- Witness for C7 at a concrete all-(-1) two-day run. -/
theorem C7_witness :
    simulateCore [Day.mk 100 (-1), Day.mk 110 (-1)] = (0, 0, 0) :=
  C7_profit_formula_and_zero_floor.2 [Day.mk 100 (-1), Day.mk 110 (-1)]
    (by decide)

/-- One day of the loop keeps cash and holding non-negative when the day's
price is positive. -/
lemma step_nonneg (st : TradeState) (d : Day) (hc : 0 ≤ st.cash)
    (hh : 0 ≤ st.holding) (hp : 0 < d.price) :
    0 ≤ (step st d).cash ∧ 0 ≤ (step st d).holding := by
  have hmul : 0 ≤ st.holding * d.price := mul_nonneg hh hp.le
  have hdiv : 0 ≤ 1000 / d.price := div_nonneg (by norm_num) hp.le
  dsimp only [step, inject]
  split_ifs <;> constructor <;> dsimp only <;> nlinarith

/-- The whole day loop keeps cash and holding non-negative when every
price is positive. -/
lemma foldl_nonneg (days : List Day) :
    ∀ st : TradeState, (∀ d ∈ days, 0 < d.price) →
      0 ≤ st.cash → 0 ≤ st.holding →
      0 ≤ (days.foldl step st).cash ∧ 0 ≤ (days.foldl step st).holding := by
  induction days with
  | nil => exact fun st _ hc hh => ⟨hc, hh⟩
  | cons d ds ih =>
    intro st hall hc hh
    rw [List.foldl_cons]
    have h := step_nonneg st d hc hh (hall d (List.mem_cons_self d ds))
    exact ih _ (fun x hx => hall x (List.mem_cons_of_mem d hx)) h.1 h.2

/-- C4: over days with positive adjusted closes, cash is non-negative after
every day's transition; and whenever a purchase cost exceeds available
cash — in the flat fixed-1000 buy and in the holding top-up alike — exactly
the shortfall is injected into both cash and expenses before the cost is
debited, leaving cash at exactly 0. -/
theorem C4_cash_nonneg_and_exact_injection :
    (∀ days : List Day, (∀ d ∈ days, 0 < d.price) →
      ∀ k : Nat, 0 ≤ (runDays (days.take k)).cash) ∧
    (∀ (st : TradeState) (d : Day), ¬ 0 < st.holding → 0 ≤ d.pred →
      st.cash < 1000 →
      (step st d).cash = 0 ∧
      (step st d).expenses = st.expenses + (1000 - st.cash)) ∧
    (∀ (st : TradeState) (d : Day), 0 < st.holding → 0 ≤ d.pred →
      0 < dailyGain st d →
      st.cash < st.holding * (dailyGain st d / 100) * d.price →
      (step st d).cash = 0 ∧
      (step st d).expenses =
        st.expenses + (st.holding * (dailyGain st d / 100) * d.price - st.cash)) := by
  refine ⟨?_, ?_, ?_⟩
  · intro days hall k
    exact (foldl_nonneg (days.take k) initState
      (fun d hd => hall d (List.take_subset k days hd)) le_rfl le_rfl).1
  · intro st d h1 h2 h3
    dsimp only [step, inject]
    rw [if_neg h1, if_pos h2, if_pos h3]
    constructor <;> (dsimp only; try ring)
  · intro st d h1 h2 h3 h4
    dsimp only [step, inject]
    rw [if_pos h1, if_pos h2, if_pos h3, if_pos h4]
    constructor <;> (dsimp only; try ring)

/-- Witness for C4: the day-1 and day-2 purchases of the rising two-day
scenario both inject their exact shortfall and leave cash at 0. -/
theorem C4_witness :
    (0 ≤ (runDays ([Day.mk 100 1].take 1)).cash) ∧
    ((step initState (Day.mk 100 1)).cash = 0 ∧
      (step initState (Day.mk 100 1)).expenses =
        initState.expenses + (1000 - initState.cash)) ∧
    ((step (TradeState.mk 10 0 1000 (some 100)) (Day.mk 110 1)).cash = 0 ∧
      (step (TradeState.mk 10 0 1000 (some 100)) (Day.mk 110 1)).expenses =
        (TradeState.mk 10 0 1000 (some 100)).expenses +
          ((TradeState.mk 10 0 1000 (some 100)).holding *
            (dailyGain (TradeState.mk 10 0 1000 (some 100)) (Day.mk 110 1) / 100) *
            (Day.mk 110 1).price - (TradeState.mk 10 0 1000 (some 100)).cash)) :=
  ⟨C4_cash_nonneg_and_exact_injection.1 [Day.mk 100 1]
      (by intro d hd; simp_all) 1,
   C4_cash_nonneg_and_exact_injection.2.1 initState (Day.mk 100 1)
      (by norm_num [initState]) (by norm_num) (by norm_num [initState]),
   C4_cash_nonneg_and_exact_injection.2.2 (TradeState.mk 10 0 1000 (some 100))
      (Day.mk 110 1) (by norm_num) (by norm_num) (by norm_num [dailyGain])
      (by norm_num [dailyGain])⟩

/-- C5: when no (classifier, scaler) artifact pair exists for the resolved
sector, `signal` returns the neutral prediction 0 together with a printed
diagnostic, and does not raise, for every non-empty enriched row set. -/
theorem C5_missing_artifact_returns_zero :
    ∀ (store : ArtifactStore) (sector : String) (df : List ERow) (dateStr : Nat),
      df ≠ [] →
      (store.modelOf (resolveSector sector) = none ∨
        store.scalerOf (resolveSector sector) = none) →
      signal store sector df dateStr =
        Except.ok (0, [LogEvent.warn
          ("[ERROR] Model or scaler for sector " ++ resolveSector sector ++
            " not found.")]) := by
  intro store sector df dateStr hdf hmiss
  dsimp only [signal]
  have hrow : (if (df.filter (fun r => r.Date == dateStr)).isEmpty then df.getLast?
               else (df.filter (fun r => r.Date == dateStr)).head?).isSome := by
    split_ifs with he
    · exact List.getLast?_isSome.mpr hdf
    · have hne : df.filter (fun r => r.Date == dateStr) ≠ [] := by
        intro h0
        rw [h0] at he
        exact he rfl
      obtain ⟨a, as, hcons⟩ := List.exists_cons_of_ne_nil hne
      rw [hcons]
      rfl
  obtain ⟨row, hrowe⟩ := Option.isSome_iff_exists.mp hrow
  rw [hrowe]
  rcases hmod : store.modelOf (resolveSector sector) with _ | m
  · rcases hsca : store.scalerOf (resolveSector sector) with _ | s <;> rfl
  · rcases hsca : store.scalerOf (resolveSector sector) with _ | s
    · rfl
    · rcases hmiss with h | h
      · rw [hmod] at h; exact Option.noConfusion h
      · rw [hsca] at h; exact Option.noConfusion h

/-- A model-artifact store with no artifact for any sector. -/
def store0 : ArtifactStore := ⟨fun _ => none, fun _ => none⟩

/-- An arbitrary well-formed enriched row used as concrete test data. -/
def erow0 : ERow :=
  ⟨7, 101, 99, 100, 10, 1, 3, 100, 100, 1, 1, 0, (2 : ℚ) / 100, 0, 10, 10,
   1, 1, 10, (5 : ℚ) / 2, 99, 2, 2, 100, 5, 1⟩

/-- Witness for C5 at a concrete store with no artifacts. -/
theorem C5_witness :
    signal store0 "Technology" [erow0] 7 =
      Except.ok (0, [LogEvent.warn
        ("[ERROR] Model or scaler for sector " ++ resolveSector "Technology" ++
          " not found.")]) :=
  C5_missing_artifact_returns_zero store0 "Technology" [erow0] 7 (by simp)
    (Or.inl rfl)

/-- Every `signal` call whose date is drawn from the enriched frame itself
succeeds (the date filter is non-empty, so the row selection cannot hit the
empty-frame indexing error). -/
lemma signal_ok_of_mem (store : ArtifactStore) (sector : String)
    (rows : List ERow) (r : ERow) (hr : r ∈ rows) :
    ∃ v, signal store sector rows r.Date = Except.ok v := by
  dsimp only [signal]
  have hmem : r ∈ rows.filter (fun x => x.Date == r.Date) :=
    List.mem_filter.mpr ⟨hr, by simp⟩
  have hne : rows.filter (fun x => x.Date == r.Date) ≠ [] :=
    List.ne_nil_of_mem hmem
  obtain ⟨a, as, hcons⟩ := List.exists_cons_of_ne_nil hne
  rw [hcons]
  rcases store.modelOf (resolveSector sector) with _ | m <;>
    rcases store.scalerOf (resolveSector sector) with _ | s <;>
    exact ⟨_, rfl⟩

/-- The prediction collection over rows drawn from the frame itself
succeeds. -/
lemma predsFor_ok (store : ArtifactStore) (sector : String)
    (rows : List ERow) :
    ∀ sub : List ERow, (∀ r ∈ sub, r ∈ rows) →
      ∃ ps, predsFor store sector rows sub = Except.ok ps := by
  intro sub
  induction sub with
  | nil => exact fun _ => ⟨[], rfl⟩
  | cons r rs ih =>
    intro hsub
    obtain ⟨⟨p, logs⟩, hp⟩ :=
      signal_ok_of_mem store sector rows r (hsub r (List.mem_cons_self r rs))
    obtain ⟨ps, hps⟩ := ih (fun x hx => hsub x (List.mem_cons_of_mem r hx))
    exact ⟨p :: ps, by simp [predsFor, hp, hps]⟩

/-- A ticker whose sector lookup does not raise a non-404 exception always
produces a result (possibly `none`) instead of killing the process. -/
lemma simulate_ok (store : ArtifactStore) (env : TickerEnv)
    (cache : TickerCache) (h : env.fetchOutcome ≠ FetchOutcome.errOther) :
    ∃ res cache2, simulate store env cache = Except.ok (res, cache2) := by
  rcases henv : env.bars with _ | ⟨b, bs⟩
  · exact ⟨none, cache, by simp [simulate, henv]⟩
  · have hsec : ∃ s c2,
        get_ticker_sector env.ticker cache env.fetchOutcome = Except.ok (s, c2) := by
      unfold get_ticker_sector
      rcases cache.lookup env.ticker with _ | s
      · rcases ho : env.fetchOutcome with s | _ | _ | _
        · exact ⟨s, (env.ticker, s) :: cache, rfl⟩
        · exact ⟨"Unknown", (env.ticker, "Unknown") :: cache, rfl⟩
        · exact ⟨"Unknown", (env.ticker, "Unknown") :: cache, rfl⟩
        · exact absurd ho h
      · exact ⟨s, cache, rfl⟩
    obtain ⟨s, c2, hsec⟩ := hsec
    obtain ⟨ps, hps⟩ := predsFor_ok store s
      ((List.range (sortBars (b :: bs)).length).filterMap
        (fun i => mkRow (sortBars (b :: bs)) i)) _ (fun r hr => hr)
    refine ⟨some (simulateCore (List.zipWith (fun (r : ERow) p => Day.mk r.Adj_Close p)
      ((List.range (sortBars (b :: bs)).length).filterMap
        (fun i => mkRow (sortBars (b :: bs)) i)) ps)), c2, ?_⟩
    unfold simulate
    have hpd : process_data (b :: bs) = Except.ok
        ((List.range (sortBars (b :: bs)).length).filterMap
          (fun i => mkRow (sortBars (b :: bs)) i)) := rfl
    rw [henv, hpd, hsec]
    dsimp only
    rw [hps]

/-- C3 counterexample: a batch of two tickers in which the first ticker's
sector lookup fails with a non-404 exception: `quit(1)` kills the whole
process, so no ticker of the batch — including the healthy second one —
produces a result.  The claim says such a failure never aborts the
remaining tickers. -/
theorem C3_counterexample :
    backTest store0
      [TickerEnv.mk "AAA" [Bar.mk 0 101 99 100 10] FetchOutcome.errOther,
       TickerEnv.mk "BBB" [] FetchOutcome.err404] [] = Except.error () := rfl

/-- C3 amended: a per-ticker failure that is an empty history, a missing
sector field or a 404 sector-lookup error is absorbed (absent result or
"Unknown" sector) and the batch completes with one entry per ticker; but a
sector lookup that fails with a non-404 exception executes `quit(1)` and
aborts the entire batch (see the counterexample). -/
theorem C3_batch_isolation_amended :
    ∀ (store : ArtifactStore) (envs : List TickerEnv) (cache : TickerCache),
      (∀ e ∈ envs, e.fetchOutcome ≠ FetchOutcome.errOther) →
      ∃ res, backTest store envs cache = Except.ok res ∧
        res.map Prod.fst = envs.map TickerEnv.ticker := by
  intro store envs
  induction envs with
  | nil => exact fun cache _ => ⟨[], rfl, rfl⟩
  | cons e rest ih =>
    intro cache hall
    obtain ⟨res0, cache2, h0⟩ :=
      simulate_ok store e cache (hall e (List.mem_cons_self e rest))
    obtain ⟨tail, htail, hmap⟩ :=
      ih cache2 (fun x hx => hall x (List.mem_cons_of_mem e hx))
    refine ⟨(e.ticker, res0) :: tail, ?_, ?_⟩
    · simp [backTest, h0, htail]
    · simp [hmap]

/-- Witness for the amended C3 at a concrete batch of two healthy tickers. -/
theorem C3_witness :
    ∃ res, backTest store0
        [TickerEnv.mk "CCC" [] FetchOutcome.err404,
         TickerEnv.mk "DDD" [] FetchOutcome.nofield] [] = Except.ok res ∧
      res.map Prod.fst =
        [TickerEnv.mk "CCC" [] FetchOutcome.err404,
         TickerEnv.mk "DDD" [] FetchOutcome.nofield].map TickerEnv.ticker :=
  C3_batch_isolation_amended store0 _ []
    (by intro e he; fin_cases he <;> simp)

/-- A model-artifact store holding a (classifier, scaler) pair for the
"Technology" sector only. -/
def store1 : ArtifactStore :=
  ⟨fun s => if s = "Technology" then some (fun X => X) else none,
   fun s => if s = "Technology" then some (fun _ => 1) else none⟩

/-- Arguments of one concrete `signal` call for the "Technology" sector on
a one-row frame whose date matches. -/
def call1 : String × List ERow × Nat := ("Technology", [erow0], 7)

/-- C9 counterexample: two successive `signal` lookups for the same sector
within one process lifetime load the sector's classifier file twice — the
claim's memoization (at most one load per sector per process) does not
exist in the code, which calls `joblib.load` on every lookup. -/
theorem C9_counterexample :
    (runCalls store1 [call1, call1]).count
      (LogEvent.load "Models/Technology.joblib") = 2 := rfl

/-- C9 amended: `signal` keeps no cache: every lookup for a sector whose
artifact pair exists loads the classifier (and scaler) afresh, so a process
lifetime of n lookups performs exactly n loads of the sector's classifier
file. -/
theorem C9_loads_once_per_call :
    ∀ n : Nat, (runCalls store1 (List.replicate n call1)).count
      (LogEvent.load "Models/Technology.joblib") = n := by
  intro n
  induction n with
  | zero => rfl
  | succ k ih =>
    have hexp : runCalls store1 (List.replicate (k + 1) call1) =
        [LogEvent.load "Models/Technology.joblib",
         LogEvent.load "Models/Technology_scaler.joblib"] ++
          runCalls store1 (List.replicate k call1) := by
      rw [List.replicate_succ]
      rfl
    rw [hexp, List.count_append, ih]
    have h1 : List.count (LogEvent.load "Models/Technology.joblib")
        [LogEvent.load "Models/Technology.joblib",
         LogEvent.load "Models/Technology_scaler.joblib"] = 1 := rfl
    rw [h1]
    omega

/-- A defined RSI_14 value lies in [0, 100]: the clipped-delta averages are
non-negative, so either the zero-loss branch yields exactly 100 or the
Wilder ratio formula yields 100 − 100/(1 + rs) with rs ≥ 0. -/
lemma rsi14_bounds (xs : List ℚ) (i : Nat) (v : ℚ)
    (h : rsi14 xs i = some v) : 0 ≤ v ∧ v ≤ 100 := by
  dsimp only [rsi14] at h
  set g : ℚ := ((List.range 14).map (fun j => max (deltaAt xs (i - j)) 0)).sum / 14 with hgdef
  set l : ℚ := ((List.range 14).map (fun j => max (-(deltaAt xs (i - j))) 0)).sum / 14 with hldef
  have hg0 : 0 ≤ g := by
    rw [hgdef]
    apply div_nonneg _ (by norm_num)
    apply List.sum_nonneg
    intro x hx
    obtain ⟨j, hj, rfl⟩ := List.mem_map.mp hx
    exact le_max_right _ 0
  have hl0 : 0 ≤ l := by
    rw [hldef]
    apply div_nonneg _ (by norm_num)
    apply List.sum_nonneg
    intro x hx
    obtain ⟨j, hj, rfl⟩ := List.mem_map.mp hx
    exact le_max_right _ 0
  by_cases h1 : i < 14 ∨ xs.length ≤ i
  · rw [if_pos h1] at h
    exact Option.noConfusion h
  rw [if_neg h1] at h
  by_cases h2 : l = 0
  · rw [if_pos h2] at h
    by_cases h3 : g = 0
    · rw [if_pos h3] at h
      exact Option.noConfusion h
    · rw [if_neg h3] at h
      obtain rfl : (100 : ℚ) = v := Option.some.inj h
      constructor <;> norm_num
  · rw [if_neg h2] at h
    have hv : 100 - 100 / (1 + g / l) = v := Option.some.inj h
    subst hv
    have hlpos : 0 < l := lt_of_le_of_ne hl0 (Ne.symm h2)
    have hrs : 0 ≤ g / l := div_nonneg hg0 hlpos.le
    have h1p : 0 < 1 + g / l := by linarith
    have ht1 : 0 < 100 / (1 + g / l) := div_pos (by norm_num) h1p
    have ht2 : 100 / (1 + g / l) ≤ 100 := by
      rw [div_le_iff₀ h1p]
      nlinarith
    constructor <;> linarith

/-- The RSI_14 field of a computed VOLATILITY block is the `rsi14` value of
the close series at the same row. -/
lemma volatilityCols_rsi (bs : List Bar) (i : Nat) (w : VolatilityCols)
    (h : volatilityCols bs i = some w) :
    rsi14 (closesOf bs) i = some w.rsi := by
  unfold volatilityCols at h
  simp only [bind, Option.bind_eq_some', Option.pure_def, Option.some.injEq] at h
  obtain ⟨stdv, h1, pclose, h2, atr, h3, rsi, h4, mom, h5, tgt, h6, hw⟩ := h
  subst hw
  exact h4

/-- The RSI_14 field of a surviving enriched row is the `rsi14` value of
the close series at its row index. -/
lemma mkRow_rsi (bs : List Bar) (i : Nat) (r : ERow)
    (h : mkRow bs i = some r) :
    rsi14 (closesOf bs) i = some r.RSI_14 := by
  unfold mkRow at h
  simp only [bind, Option.bind_eq_some', Option.pure_def, Option.some.injEq] at h
  obtain ⟨b, hb, p, hp, v, hv, w, hw, hr⟩ := h
  subst hr
  exact volatilityCols_rsi bs i w hw

/-- C8: for every input price sequence, the RSI_14 value of every row that
survives the pipeline (where it is defined and not dropped as NaN) lies in
the closed interval [0, 100]. -/
theorem C8_rsi_in_range :
    ∀ (bars : List Bar) (rows : List ERow) (r : ERow),
      process_data bars = Except.ok rows → r ∈ rows →
      0 ≤ r.RSI_14 ∧ r.RSI_14 ≤ 100 := by
  intro bars rows r hpd hr
  cases bars with
  | nil => exact Except.noConfusion hpd
  | cons b bs =>
    have hpd2 : Except.ok ((List.range (sortBars (b :: bs)).length).filterMap
        (fun i => mkRow (sortBars (b :: bs)) i)) = Except.ok rows := hpd
    have hrows : rows = (List.range (sortBars (b :: bs)).length).filterMap
        (fun i => mkRow (sortBars (b :: bs)) i) := (Except.ok.inj hpd2).symm
    rw [hrows] at hr
    obtain ⟨i, hi, hmk⟩ := List.mem_filterMap.mp hr
    exact rsi14_bounds _ _ _ (mkRow_rsi _ _ _ hmk)

/-- Twenty-one bars of a strictly rising close series (100 … 120) with
constant volume: the row at index 19 survives the warm-up and target
requirements, and its RSI_14 is the zero-loss value 100. -/
def wBars : List Bar :=
  [Bar.mk 0 101 99 100 10,
   Bar.mk 1 102 100 101 10,
   Bar.mk 2 103 101 102 10,
   Bar.mk 3 104 102 103 10,
   Bar.mk 4 105 103 104 10,
   Bar.mk 5 106 104 105 10,
   Bar.mk 6 107 105 106 10,
   Bar.mk 7 108 106 107 10,
   Bar.mk 8 109 107 108 10,
   Bar.mk 9 110 108 109 10,
   Bar.mk 10 111 109 110 10,
   Bar.mk 11 112 110 111 10,
   Bar.mk 12 113 111 112 10,
   Bar.mk 13 114 112 113 10,
   Bar.mk 14 115 113 114 10,
   Bar.mk 15 116 114 115 10,
   Bar.mk 16 117 115 116 10,
   Bar.mk 17 118 116 117 10,
   Bar.mk 18 119 117 118 10,
   Bar.mk 19 120 118 119 10,
   Bar.mk 20 121 119 120 10]

/-- The enriched rows of `wBars`, written as `process_data` produces them. -/
def wRows : List ERow :=
  (List.range (sortBars wBars).length).filterMap (fun i => mkRow (sortBars wBars) i)

/-- Witness for C8 at the concrete 21-bar rising series: the pipeline
succeeds and holds a surviving row, whose RSI_14 the theorem bounds. -/
theorem C8_witness :
    process_data wBars = Except.ok wRows ∧
      ∃ r, r ∈ wRows ∧ 0 ≤ r.RSI_14 ∧ r.RSI_14 ≤ 100 := by
  have hpd : process_data wBars = Except.ok wRows := rfl
  have hs : sortBars wBars = wBars := rfl
  obtain ⟨r, hr⟩ : ∃ r, mkRow (sortBars wBars) 19 = some r := by
    rw [hs]
    norm_num [mkRow, priceCols, volCols, volatilityCols, pctChangeCol,
      rollMeanCol, rollVarCol, shiftCol, atrCol, rsi14, momCol, targetCol,
      divQ, deltaAt, trVal, closesOf, volsOf, wBars, bind, Option.bind_eq_some',
      List.range_succ, max_def]
  have hmem : r ∈ wRows :=
    List.mem_filterMap.mpr ⟨19,
      by
        rw [show (sortBars wBars).length = 21 from rfl]
        exact List.mem_range.mpr (by norm_num),
      hr⟩
  exact ⟨hpd, r, hmem, C8_rsi_in_range wBars wRows r hpd hmem⟩

end ScikitBot
